import Mathlib

/-!
Shallow embedding of the AI-plan generation pipeline of
`apps/welcome/backend/api/generate_pm_plan.py`: the prompt compiler
(`generate_prompt`), the plan validator (`_validate_plan_structure`),
the runtime-hours estimator embedded in the `generate_ai_plan` endpoint,
and the endpoint's parse/validate/except control flow.

Python values decoded from JSON are modelled by the inductive `Json`
(objects as association lists), machine floats by `ℚ`, calendar dates by
integer day numbers, and raised exceptions by `Except`.
-/

/-- A JSON value as produced by Python's `json.loads`: `null`, `bool`,
numbers, strings, arrays, and objects (association lists, first match wins
on lookup, mirroring unique-key dicts). -/
inductive Json where
  | null : Json
  | bool (b : Bool) : Json
  | num (q : ℚ) : Json
  | str (s : String) : Json
  | arr (xs : List Json) : Json
  | obj (kvs : List (String × Json)) : Json

/-- `d.get(k)` on a Python dict modelled as an association list. -/
def jsonGet (kvs : List (String × Json)) (k : String) : Option Json :=
  match kvs with
  | [] => none
  | (k', v) :: rest => if k' = k then some v else jsonGet rest k

/-- `k in d` on a Python dict. -/
def jsonHasKey (kvs : List (String × Json)) (k : String) : Bool :=
  (jsonGet kvs k).isSome

/-- Python `str.strip()` restricted to whitespace stripping: drop leading
and trailing whitespace characters. -/
def pyStrip (s : String) : String :=
  ⟨((s.data.dropWhile Char.isWhitespace).reverse.dropWhile Char.isWhitespace).reverse⟩

/-- Helper for `pyTitle`: the flag records whether the previous character
was alphabetic (a "cased" character in Python's terms). -/
def pyTitleAux : Bool → List Char → List Char
  | _, [] => []
  | prev, c :: cs =>
    if c.isAlpha then
      (if prev then c.toLower else c.toUpper) :: pyTitleAux true cs
    else
      c :: pyTitleAux false cs

/-- Python `str.title()`: the first character of every alphabetic run is
uppercased and the rest lowercased (modelled for alphabetic characters). -/
def pyTitle (s : String) : String :=
  ⟨pyTitleAux false s.data⟩

/-- All characters are ASCII digits. -/
def allDigits (cs : List Char) : Bool := cs.all Char.isDigit

/-- An optionally signed non-empty digit string (the exponent payload of a
Python float literal). -/
def signedDigits : List Char → Bool
  | [] => false
  | '+' :: ds => !ds.isEmpty && allDigits ds
  | '-' :: ds => !ds.isEmpty && allDigits ds
  | cs => allDigits cs

/-- Accepts an (optional) exponent suffix of a Python float literal. -/
def pyExpAccepts : List Char → Bool
  | [] => true
  | 'e' :: rest => signedDigits rest
  | 'E' :: rest => signedDigits rest
  | _ => false

/-- The unsigned body of a Python float literal:
`digits [. digits] [exp]` or `. digits [exp]`. -/
def pyFloatBody (cs : List Char) : Bool :=
  let p := cs.span Char.isDigit
  match p.2 with
  | '.' :: rest2 =>
    let q := rest2.span Char.isDigit
    (!p.1.isEmpty || !q.1.isEmpty) && pyExpAccepts q.2
  | rest => !p.1.isEmpty && pyExpAccepts rest

/-- Modelled on CPython `float(str)`: surrounding whitespace is stripped,
an optional sign is allowed, and the body is a decimal float literal or
(case-insensitively) `inf`, `infinity` or `nan`. Digit-group underscores
are not modelled. -/
def pyFloatAccepts (s : String) : Bool :=
  let cs := (pyStrip s).data
  let body := match cs with
    | '+' :: r => r
    | '-' :: r => r
    | r => r
  let lower := body.map Char.toLower
  lower = "inf".data || lower = "infinity".data || lower = "nan".data || pyFloatBody body

/-- `_is_number(value)`: `float(value)` succeeds exactly on numbers,
booleans (`float(True) == 1.0`) and numeric-looking strings; `None`,
lists and dicts raise. -/
def is_number (v : Json) : Bool :=
  match v with
  | Json.num _ => true
  | Json.bool _ => true
  | Json.str s => pyFloatAccepts s
  | _ => false

/-- The `detail` payload of an `HTTPException`: either a plain message
string or the `{"validation_errors": [...]}` object. -/
inductive ErrDetail where
  | msg (s : String) : ErrDetail
  | validationErrors (errors : List String) : ErrDetail

/-- `HTTPException(status_code=..., detail=...)`. -/
structure HTTPException where
  status_code : Nat
  detail : ErrDetail

/-- The 21 required task keys, in source order. -/
def required_keys : List String :=
  ["parent_asset", "child_asset", "task_name", "maintenance_interval", "instructions",
   "reason", "engineering_rationale", "safety_precautions", "common_failures_prevented",
   "usage_insights", "tools_needed", "number_of_technicians", "estimated_time_minutes",
   "consumables", "risk_assessment", "criticality_rating", "comments", "assumptions",
   "citations", "inherits_parent_context", "context_overrides"]

/-- The per-task body of the validator loop: the list of error strings
appended for the task at index `idx`. -/
def taskErrors (idx : Nat) (task : Json) : List String :=
  let path := s!"maintenance_plan[{idx}]"
  match task with
  | Json.obj kvs =>
    (required_keys.filter (fun key => !jsonHasKey kvs key)).map
      (fun key => s!"{path}.{key} is missing")
    ++ (match jsonGet kvs "maintenance_interval" with
        | some v => if !is_number v then [s!"{path}.maintenance_interval must be numeric (weeks)"] else []
        | none => [])
    ++ (match jsonGet kvs "estimated_time_minutes" with
        | some v => if !is_number v then [s!"{path}.estimated_time_minutes must be numeric (minutes)"] else []
        | none => [])
    ++ (match jsonGet kvs "criticality_rating" with
        | some val =>
          if !(match val with
               | Json.str s => ["High", "Medium", "Low"].contains (pyTitle (pyStrip s))
               | _ => false) then
            [s!"{path}.criticality_rating must be one of High, Medium, Low"]
          else []
        | none => [])
    ++ (match jsonGet kvs "inherits_parent_context" with
        | some v => (match v with
            | Json.bool _ => []
            | _ => [s!"{path}.inherits_parent_context must be boolean"])
        | none => [])
    ++ (match jsonGet kvs "context_overrides" with
        | some v => (match v with
            | Json.obj _ => []
            | _ => [s!"{path}.context_overrides must be an object (dict)"])
        | none => [])
    ++ (if jsonHasKey kvs "scheduled_dates" then
          [s!"{path}.scheduled_dates must NOT be included; use maintenance_interval in weeks instead"]
        else [])
  | _ => [s!"{path} is not an object"]

/-- `_validate_plan_structure(plan_json)`: raises (models as `.error`)
`HTTPException(422)` on failure, returns unit on success. -/
def validate_plan_structure (plan_json : Json) : Except HTTPException Unit :=
  match plan_json with
  | Json.obj kvs =>
    if !jsonHasKey kvs "maintenance_plan" then
      Except.error ⟨422, ErrDetail.msg "Output must be a JSON object with key \x27maintenance_plan\x27."⟩
    else
      match jsonGet kvs "maintenance_plan" with
      | some (Json.arr tasks) =>
        if tasks.isEmpty then
          Except.error ⟨422, ErrDetail.msg "\x27maintenance_plan\x27 must be a non-empty array of task objects."⟩
        else
          let errors := (tasks.enum.map (fun p => taskErrors p.1 p.2)).flatten
          if !errors.isEmpty then
            Except.error ⟨422, ErrDetail.validationErrors errors⟩
          else
            Except.ok ()
      | _ =>
        Except.error ⟨422, ErrDetail.msg "\x27maintenance_plan\x27 must be a non-empty array of task objects."⟩
  | _ =>
    Except.error ⟨422, ErrDetail.msg "Output must be a JSON object with key \x27maintenance_plan\x27."⟩

/-- The endpoint's parse/validate section together with its surrounding
`try/except`: `parsed` is the outcome of `json.loads(ai_output)` (`none`
models a `JSONDecodeError`).  Because `HTTPException` subclasses
`Exception`, the `except Exception` clause catches the 422s raised inside
the `try` block and re-raises `HTTPException(500, "Gemini API error.")`;
on success the endpoint returns `plan_json.get("maintenance_plan", [])`
as the response data. -/
def pipelineAfterParse (parsed : Option Json) : Except HTTPException Json :=
  let tryBody : Except HTTPException Json :=
    match parsed with
    | none => Except.error ⟨422, ErrDetail.msg "Model did not return valid JSON."⟩
    | some plan_json =>
      match validate_plan_structure plan_json with
      | Except.error e => Except.error e
      | Except.ok _ =>
        Except.ok (match plan_json with
          | Json.obj kvs => (jsonGet kvs "maintenance_plan").getD (Json.arr [])
          | _ => Json.arr [])
  match tryBody with
  | Except.ok tasks => Except.ok tasks
  | Except.error _ => Except.error ⟨500, ErrDetail.msg "Gemini API error."⟩

/-- The `PMPlanInput` request model. -/
structure PMPlanInput where
  name : String
  model : String
  serial : String
  category : String
  hours : String
  frequency : String
  criticality : String
  additional_context : String
  parent_asset : Option String := none
  child_asset : Option String := none
  site_location : Option String := none
  environment : Option String := none
  parent_asset_id : Option String := none
  child_asset_id : Option String := none

/-- Python truthiness of an `Optional[str]`: `None` and `""` are falsy. -/
def optTruthy : Option String → Bool
  | none => false
  | some s => !s.isEmpty

/-- `data.parent_asset if data.parent_asset else "Not applicable"`. -/
def sub_parent_asset (data : PMPlanInput) : String :=
  match data.parent_asset with
  | some s => if s.isEmpty then "Not applicable" else s
  | none => "Not applicable"

/-- `data.child_asset if data.child_asset else "Not applicable"`. -/
def sub_child_asset (data : PMPlanInput) : String :=
  match data.child_asset with
  | some s => if s.isEmpty then "Not applicable" else s
  | none => "Not applicable"

/-- `data.site_location if data.site_location else "Not applicable"`. -/
def sub_site_location (data : PMPlanInput) : String :=
  match data.site_location with
  | some s => if s.isEmpty then "Not applicable" else s
  | none => "Not applicable"

/-- `data.environment if data.environment else "Not applicable"`. -/
def sub_environment (data : PMPlanInput) : String :=
  match data.environment with
  | some s => if s.isEmpty then "Not applicable" else s
  | none => "Not applicable"

/-- `data.hours if data.hours else "Not applicable"`. -/
def sub_hours (data : PMPlanInput) : String :=
  if data.hours.isEmpty then "Not applicable" else data.hours

/-- `data.frequency if data.frequency else "Not applicable"`. -/
def sub_frequency (data : PMPlanInput) : String :=
  if data.frequency.isEmpty then "Not applicable" else data.frequency

/-- `data.criticality if data.criticality else "Medium"`. -/
def sub_criticality (data : PMPlanInput) : String :=
  if data.criticality.isEmpty then "Medium" else data.criticality

/-- `data.additional_context if data.additional_context else "Not applicable"`. -/
def sub_addl (data : PMPlanInput) : String :=
  if data.additional_context.isEmpty then "Not applicable" else data.additional_context

/-- The ambient clock: `todayISO` models `datetime.utcnow().date().isoformat()`,
the only piece of external state `generate_prompt` reads. -/
structure Clock where
  todayISO : String

/-- A calendar date as a day number from a fixed epoch, so that
`d2 - d1` models `(date2 - date1).days`. -/
abbrev PyDate := Int

/-- Python `int(q)` on a (modelled-exact) float: truncation toward zero. -/
def pyInt (q : ℚ) : Int := if 0 ≤ q then ⌊q⌋ else ⌈q⌉

/-- `weeks_since_install = (current_date - install_date).days / 7`. -/
def weeks_since_install (current install : PyDate) : ℚ :=
  ((current - install : ℤ) : ℚ) / 7

/-- `total_hours = max(0, int(weeks_since_install * hours_run_per_week))`. -/
def runtime_total_hours (current install : PyDate) (rate : ℚ) : Int :=
  max 0 (pyInt (weeks_since_install current install * rate))

/-- Outcomes of the estimator's two storage lookups and of `date.today()`;
`.error ()` on a lookup models an exception raised by that call. -/
structure EstimatorDeps where
  /-- `parent_assets` select result rows, each carrying `hours_run_per_week`
  (`none` models SQL null / missing). -/
  parentRows : Except Unit (List (Option ℚ))
  /-- `child_assets` select result rows, each carrying `plan_start_date`:
  `none` models null/absent (falsy), `some (.error ())` a truthy value whose
  date parse raises, `some (.ok d)` a value parsing to date `d`. -/
  childRows : Except Unit (List (Option (Except Unit PyDate)))
  /-- `date.today()` -/
  today : PyDate

/-- The body of the `try` block computing runtime hours (endpoint lines
258-290): produces `some s` when `calculated_hours` is reassigned to the
estimate `s`, `none` when a falsy guard leaves it untouched, and `.error`
when any step raises. -/
def estimatorTryBody (deps : EstimatorDeps) : Except Unit (Option String) := do
  let prows ← deps.parentRows
  match prows.head? with
  | none => return none
  | some hrw? =>
    match hrw? with
    | none => return none
    | some hrw =>
      if hrw = 0 then return none
      else
        let crows ← deps.childRows
        match crows.head? with
        | none => return none
        | some inst? =>
          match inst? with
          | none => return none
          | some instParse =>
            let install ← instParse
            return some (toString (runtime_total_hours deps.today install hrw))

/-- `calculated_hours`: starts as `input.hours`; the estimator runs only
when both asset ids are truthy, and any exception it raises is caught
(and logged), leaving the caller-supplied hours in place. -/
def calculated_hours (input : PMPlanInput) (deps : EstimatorDeps) : String :=
  if optTruthy input.parent_asset_id && optTruthy input.child_asset_id then
    match estimatorTryBody deps with
    | Except.error _ => input.hours
    | Except.ok none => input.hours
    | Except.ok (some h) => h
  else input.hours

/-- `modified_input`: a fresh `PMPlanInput` copying every field of `input`
with `hours` replaced by `calculated_hours`. -/
def modified_input (input : PMPlanInput) (deps : EstimatorDeps) : PMPlanInput :=
  { input with hours := calculated_hours input deps }

/-- The f-string template of `generate_prompt`, with one argument per
interpolation site, in order of first use; `{{`/`}}` of the source render
as literal braces. -/
def promptTemplate (parent_asset child_asset site_location environment hours frequency criticality addl today : String) : String :=
  "\nROLE & SCOPE\nYou are an expert in enterprise asset management, industrial machinery, and preventive maintenance planning. \nYou have deep knowledge of rotating equipment, mechanical systems, electrical systems, and control systems across \nmultiple industries. You generate authoritative, standard-compliant preventive maintenance plans for child assets \n(components), drawing from OEM manuals, ISO/ASTM/API standards, and trusted supplier guidance (e.g., SKF, Mobil, Shell).\nProduce a child-asset/component-level PM plan for the specified child asset (component scope only).\n\n\nUNIVERSAL CONTEXT (inherits unless overridden at task level)\n- Parent Asset: "
  ++ parent_asset
  ++ "\n- Child Asset: "
  ++ child_asset
  ++ "\n- Site Location: "
  ++ site_location
  ++ "\n- Environment: "
  ++ environment
  ++ "\n- Cumulative Runtime Hours: "
  ++ hours
  ++ " (calculated as weeks since installation × parent asset\x27s weekly operating hours)\n- PM Frequency: "
  ++ frequency
  ++ "\n- Criticality: "
  ++ criticality
  ++ "\n- Additional Context: "
  ++ addl
  ++ "\n- Plan Start Date: "
  ++ today
  ++ "\n\nIMPORTANT - Runtime Hours Context:\nThe provided runtime hours represent the total accumulated operating hours since the child asset\x27s installation date. This value is calculated by multiplying the number of weeks between the installation date and today by the parent asset\x27s weekly operating hours. Use this cumulative runtime to inform maintenance intervals based on actual equipment usage rather than calendar time alone. Higher cumulative hours may require more frequent maintenance intervals to prevent wear-related failures.\n\nPOLICIES (MANDATORY)\n- If the system has manufacturer manual content available, treat it as primary. Extract concrete instructions/intervals/specs/lubricants/part numbers and cite exact sections/pages in \"citations\".\n- CRITICAL RULE - Manual Text Usage: When manual content is provided:\n  1. You MUST extract and include specific maintenance procedures, part numbers, torque specifications, intervals, and step-by-step instructions DIRECTLY from the provided manual text\n  2. You are STRICTLY FORBIDDEN from using phrases like \"refer to manual\", \"consult documentation\", \"see user manual\", or ANY similar reference phrases\n  3. Each maintenance task MUST incorporate the actual details found in the manual text\n  4. Include exact specifications: part numbers, torque values, clearances, pressures, fluid types, quantities\n  5. Include step-by-step procedures as found in the manual\n  6. Self-check: Before outputting any task, verify you have NOT used any phrase that directs users to external documentation when manual text was provided. Instead, ensure you\x27ve included the actual information from the manual.\n- If no manual content is available, use recognized standards/suppliers (ISO/ASTM/API; SKF/Mobil/Shell). Cite them. Never write “refer to the manual”; always provide actual values/steps.\n- Do not include calendar dates anywhere; use numeric intervals in **weeks** only.\n\n\n- CRITICAL: Do NOT include \"Visual Inspection\" or \"Monthly cleaning\" tasks at the child asset level as these are handled at the parent asset level.\n- Exclude any routine cleaning or visual-only inspections unless the OEM manual explicitly prescribes them for this specific component (not general system) or a standard/supplier requires them. If included, cite the exact source.\n- Focus on technical, measurable tasks specific to the child asset (lubrication, torque, calibration, functional checks, replacements, adjustments, monitoring, safety interlocks).\n\n\nDEDUPLICATION & INHERITANCE\n- Treat Site Location, Environment, Operating Hours, and Criticality as universal context. Do NOT repeat them in every field; only note deviations in \"context_overrides\".\n- Keep language concise. Avoid redundant phrasing across tasks.\n\nDATA TYPES & UNITS\n- maintenance_interval: **weeks as a number ONLY**. Mapping:\n  Daily ≈ 0.143, Weekly = 1, Biweekly = 2, Monthly ≈ 4, Quarterly ≈ 13, Yearly ≈ 52. Use fractional weeks as needed.\n- estimated_time_minutes, number_of_technicians: integers.\n- Use \"Not applicable\" for any field where nothing applies. Arrays must contain at least one item (e.g., [\"Not applicable\"]) when otherwise empty.\n- Safety steps must precede any action that could expose energy. If LOTO applies, include it as the first step.\n\nCHILD-ASSET SCOPE NOTES\n- Include lubrication tasks when applicable; identify grease points/zones if known. Provide specific product/type/quantity when available (prefer OEM), otherwise standards/suppliers with citations.\n\nTASK NAMING CONVENTION\n- task_name = \""
  ++ child_asset
  ++ " – \x7bAction\x7d – \x7bArea/Subsystem\x7d\" (no marketing fluff).\n\nHALLUCINATION GUARDRAILS\n- Never fabricate part numbers or brand-specific specs. If not known credibly, choose a conservative, widely accepted default and record rationale in \"assumptions\".\n- If any universal field is unknown, proceed with best practices and add a brief assumption.\n\nOUTPUT SECTION\n\"maintenance_plan\": child-asset tasks ONLY.\n\nREQUIRED FIELDS for each task (never omit; use \"Not applicable\" where needed):\n- \"parent_asset\", \"child_asset\", \"task_name\", \"maintenance_interval\",\n- \"instructions\" (array of steps),\n- \"reason\", \"engineering_rationale\",\n- \"safety_precautions\" (array),\n- \"common_failures_prevented\" (array),\n- \"usage_insights\",\n- \"tools_needed\" (array),\n- \"number_of_technicians\", \"estimated_time_minutes\",\n- \"consumables\" (array),\n- \"risk_assessment\",\n- \"criticality_rating\" (\"High\"|\"Medium\"|\"Low\"),\n- \"comments\",\n- \"assumptions\" (array),\n- \"citations\" (array),\n- \"inherits_parent_context\" (bool),\n- \"context_overrides\" (object with allowed keys: site_location, environment, operating_hours, criticality; empty if none)\n\nFEW-SHOT EXAMPLE (ABBREVIATED; 1 task)\n\x7b\n  \"parent_asset\": \""
  ++ parent_asset
  ++ "\",\n  \"child_asset\": \""
  ++ child_asset
  ++ "\",\n  \"task_name\": \""
  ++ child_asset
  ++ " – Bearing Lubrication – Drive End\",\n  \"maintenance_interval\": 4,\n  \"instructions\": [\n    \"Lock out/tag out per site policy\",\n    \"Clean grease fitting and surrounding area\",\n    \"Apply 2–3 shots of NLGI #2 lithium complex grease (per OEM spec) to the drive-end bearing\",\n    \"Rotate shaft manually to distribute grease\",\n    \"Wipe excess and re-install fitting cap\"\n  ],\n  \"reason\": \"Maintain adequate film and prevent bearing wear due to lubricant depletion\",\n  \"engineering_rationale\": \"Approx. monthly (4 weeks) interval aligned to continuous operation in "
  ++ environment
  ++ "; adjust if temperature trending indicates\",\n  \"safety_precautions\": [\"PPE per site policy\", \"LOTO before contact with rotating equipment\"],\n  \"common_failures_prevented\": [\"Bearing overheating\", \"Premature wear\", \"Seizure\"],\n  \"usage_insights\": \"With "
  ++ hours
  ++ " cumulative runtime hours since installation, consider trending vibration/temperature to optimize interval based on actual usage patterns\",\n  \"tools_needed\": [\"Grease gun with zerk coupler\", \"Clean lint-free wipes\"],\n  \"number_of_technicians\": 1,\n  \"estimated_time_minutes\": 15,\n  \"consumables\": [\"NLGI #2 lithium complex grease (e.g., Mobil XHP 222)\"],\n  \"risk_assessment\": \"Low risk when LOTO applied; risk increases if contamination occurs\",\n  \"criticality_rating\": \"Medium\",\n  \"comments\": \"Not applicable\",\n  \"assumptions\": [\"OEM spec calls for NLGI #2; quantity verified on nameplate/manual\"],\n  \"citations\": [\"ISO 17359 – Condition monitoring\", \"SKF Grease Guide\"],\n  \"inherits_parent_context\": true,\n  \"context_overrides\": \x7b\x7d\n\x7d\n\nFINAL OUTPUT REQUIREMENTS\n- Return ONE JSON object only, no extra text.\n- Begin your output immediately with:\n\x7b\n  \"maintenance_plan\": [\n\nSCHEMA REMINDER\n\x7b\n  \"maintenance_plan\": [ \x7btask1\x7d, \x7btask2\x7d, ... ]\n\x7d\n"

/-- `generate_prompt(data)`: computes the eight substitution values from
the request (source lines 43-50) and renders the template, reading the
current date from the ambient clock (source line 42). -/
def generate_prompt (clock : Clock) (data : PMPlanInput) : String :=
  promptTemplate (sub_parent_asset data) (sub_child_asset data) (sub_site_location data)
    (sub_environment data) (sub_hours data) (sub_frequency data) (sub_criticality data)
    (sub_addl data) clock.todayISO

/-- `prompt = generate_prompt(modified_input)` as rendered by the endpoint. -/
def endpointPrompt (clock : Clock) (input : PMPlanInput) (deps : EstimatorDeps) : String :=
  generate_prompt clock (modified_input input deps)

/-- `{"maintenance_plan": tasks}`. -/
def mkPlan (tasks : List Json) : Json :=
  Json.obj [("maintenance_plan", Json.arr tasks)]

/-- A task object carrying all 21 required keys with well-typed values,
its `criticality_rating` set to `crit`. -/
def fullTaskWith (crit : Json) : List (String × Json) :=
  [("parent_asset", Json.str "Pump P-100"),
   ("child_asset", Json.str "Drive Motor"),
   ("task_name", Json.str "Drive Motor - Bearing Lubrication"),
   ("maintenance_interval", Json.num 4),
   ("instructions", Json.arr [Json.str "Lock out/tag out per site policy"]),
   ("reason", Json.str "Prevent bearing wear"),
   ("engineering_rationale", Json.str "Monthly interval per OEM guidance"),
   ("safety_precautions", Json.arr [Json.str "PPE per site policy"]),
   ("common_failures_prevented", Json.arr [Json.str "Bearing overheating"]),
   ("usage_insights", Json.str "Not applicable"),
   ("tools_needed", Json.arr [Json.str "Grease gun"]),
   ("number_of_technicians", Json.num 1),
   ("estimated_time_minutes", Json.num 15),
   ("consumables", Json.arr [Json.str "NLGI #2 grease"]),
   ("risk_assessment", Json.str "Low risk when LOTO applied"),
   ("criticality_rating", crit),
   ("comments", Json.str "Not applicable"),
   ("assumptions", Json.arr [Json.str "Not applicable"]),
   ("citations", Json.arr [Json.str "SKF Grease Guide"]),
   ("inherits_parent_context", Json.bool true),
   ("context_overrides", Json.obj [])]

/-- The fully valid reference task. -/
def fullTask : List (String × Json) := fullTaskWith (Json.str "Medium")

/-- `fullTask` with the 3 required keys `reason`, `comments` and
`citations` removed (and nothing else wrong). -/
def taskMissing3 : List (String × Json) :=
  fullTask.filter (fun p => !(p.1 == "reason" || p.1 == "comments" || p.1 == "citations"))

/-- `fullTask` with the required key `task_name` removed. -/
def taskMissingName : List (String × Json) :=
  fullTask.filter (fun p => !(p.1 == "task_name"))

/-- The structural gate of the validator as a boolean: the candidate is a
mapping whose key `maintenance_plan` holds a non-empty list. -/
def structGate (c : Json) : Bool :=
  match c with
  | Json.obj kvs =>
    match jsonGet kvs "maintenance_plan" with
    | some (Json.arr (_ :: _)) => true
    | _ => false
  | _ => false

/-- C1. The spec requires schema violations to surface to the caller as a
422 carrying the aggregated violation list (error kind and location),
never approximated into a generic server error.  The validator does
construct that 422 — but the endpoint's `except Exception` clause catches
`HTTPException` (a subclass of `Exception`) and re-raises a generic
`HTTPException(500, "Gemini API error.")`, so for a response that parses
as JSON but fails validation the caller receives the generic 500, and the
violation list is suppressed. -/
theorem c1_validation_detail_swallowed_to_500 :
    validate_plan_structure (mkPlan [Json.obj taskMissing3]) =
      Except.error ⟨422, ErrDetail.validationErrors
        ["maintenance_plan[0].reason is missing",
         "maintenance_plan[0].comments is missing",
         "maintenance_plan[0].citations is missing"]⟩ ∧
    pipelineAfterParse (some (mkPlan [Json.obj taskMissing3])) =
      Except.error ⟨500, ErrDetail.msg "Gemini API error."⟩ := by
  exact ⟨rfl, rfl⟩

/-- C2. The validator aggregates violations instead of short-circuiting:
a task missing exactly the 3 required keys `reason`, `comments`,
`citations` (and violating nothing else) yields exactly 3 violations, one
per missing field; and violations are collected across all tasks of the
plan, as shown by a two-task candidate reporting the second task's
missing `task_name` after the first task's 3 missing keys. -/
theorem c2_validator_reports_all_missing_fields :
    validate_plan_structure (mkPlan [Json.obj taskMissing3]) =
      Except.error ⟨422, ErrDetail.validationErrors
        ["maintenance_plan[0].reason is missing",
         "maintenance_plan[0].comments is missing",
         "maintenance_plan[0].citations is missing"]⟩ ∧
    validate_plan_structure (mkPlan [Json.obj taskMissing3, Json.obj taskMissingName]) =
      Except.error ⟨422, ErrDetail.validationErrors
        ["maintenance_plan[0].reason is missing",
         "maintenance_plan[0].comments is missing",
         "maintenance_plan[0].citations is missing",
         "maintenance_plan[1].task_name is missing"]⟩ := by
  exact ⟨rfl, rfl⟩


/-- After the `max(0, _)` clamp, Python's toward-zero truncation `int(q)`
agrees with the floor: they differ only on `(-1, 0)`, where both clamp
to `0`. -/
theorem max_zero_pyInt_eq_floor (q : ℚ) : max 0 (pyInt q) = max 0 ⌊q⌋ := by
  unfold pyInt
  by_cases h : (0 : ℚ) ≤ q
  · simp [h]
  · push_neg at h
    have hc : ⌈q⌉ ≤ 0 := Int.ceil_le.2 (by exact_mod_cast h.le)
    have hf : ⌊q⌋ ≤ 0 := Int.floor_nonpos h.le
    simp only [not_le.mpr h, if_false]
    omega

/-- C3. The estimator computes `weeks_elapsed = (today - install).days / 7`
as a fraction and `total_hours = max(0, floor(weeks_elapsed * rate))` —
the source's toward-zero `int(...)` coincides with the spec's floor under
the clamp — rendered via `str(...)`; an install date one week in the
future with a positive weekly rate renders exactly `"0"`. -/
theorem c3_runtime_hours_floor_clamp :
    (∀ (current install : PyDate) (rate : ℚ),
      runtime_total_hours current install rate =
        max 0 ⌊weeks_since_install current install * rate⌋) ∧
    (∀ (current : PyDate) (rate : ℚ), 0 < rate →
      toString (runtime_total_hours current (current + 7) rate) = "0") := by
  constructor
  · intro current install rate
    exact max_zero_pyInt_eq_floor _
  · intro current rate hrate
    have hw : weeks_since_install current (current + 7) = -1 := by
      unfold weeks_since_install
      have h7 : (current - (current + 7) : ℤ) = -7 := by ring
      rw [h7]
      norm_num
    have hq : weeks_since_install current (current + 7) * rate = -rate := by
      rw [hw]; ring
    have hneg : ¬ (0 : ℚ) ≤ -rate := by
      simp only [not_le]
      exact neg_neg_of_pos hrate
    have hceil : ⌈(-rate : ℚ)⌉ ≤ 0 :=
      Int.ceil_le.2 (by exact_mod_cast (le_of_lt (neg_neg_of_pos hrate)))
    have h0 : runtime_total_hours current (current + 7) rate = 0 := by
      unfold runtime_total_hours pyInt
      rw [hq]
      simp only [hneg, if_false]
      omega
    rw [h0]
    rfl

/-- Witness for C3 at `today = 0`, `install = 7`, `rate = 40`. -/
theorem c3_runtime_hours_floor_clamp_witness :
    (0 : ℚ) < 40 ∧ toString (runtime_total_hours 0 7 40) = "0" :=
  ⟨by norm_num, c3_runtime_hours_floor_clamp.2 0 40 (by norm_num)⟩

/-- C4. The runtime-hours estimator is best-effort: whenever it produces
no estimate — the two asset ids are not both (truthily) supplied, any
step of the `try` block raises (the exception is caught), or a falsy
guard (absent row, null or zero weekly rate, null install date) leaves
`calculated_hours` untouched — the caller-supplied `hours` string passes
through unchanged and the rendered prompt equals the prompt for the
original request. -/
theorem c4_estimator_fallback :
    ∀ (clock : Clock) (input : PMPlanInput) (deps : EstimatorDeps),
      ((optTruthy input.parent_asset_id && optTruthy input.child_asset_id) = false ∨
       estimatorTryBody deps = Except.error () ∨
       estimatorTryBody deps = Except.ok none) →
      calculated_hours input deps = input.hours ∧
      endpointPrompt clock input deps = generate_prompt clock input := by
  intro clock input deps h
  have hc : calculated_hours input deps = input.hours := by
    rcases h with h | h | h
    · simp [calculated_hours, h]
    · simp [calculated_hours, h]
    · simp [calculated_hours, h]
  refine ⟨hc, ?_⟩
  unfold endpointPrompt modified_input
  rw [hc]

/-- Witness for C4: ids absent and the parent lookup raising. -/
theorem c4_estimator_fallback_witness :
    ((optTruthy (none : Option String) && optTruthy (none : Option String)) = false ∨
     estimatorTryBody ⟨Except.error (), Except.error (), 0⟩ = Except.error () ∨
     estimatorTryBody ⟨Except.error (), Except.error (), 0⟩ = Except.ok none) ∧
    calculated_hours
      ⟨"P", "M", "S", "C", "120", "Monthly", "High", "ctx", none, none, none, none, none, none⟩
      ⟨Except.error (), Except.error (), 0⟩ = "120" ∧
    endpointPrompt ⟨"2026-10-12"⟩
      ⟨"P", "M", "S", "C", "120", "Monthly", "High", "ctx", none, none, none, none, none, none⟩
      ⟨Except.error (), Except.error (), 0⟩ =
    generate_prompt ⟨"2026-10-12"⟩
      ⟨"P", "M", "S", "C", "120", "Monthly", "High", "ctx", none, none, none, none, none, none⟩ := by
  refine ⟨Or.inl rfl, ?_, ?_⟩
  · exact (c4_estimator_fallback ⟨"2026-10-12"⟩
      ⟨"P", "M", "S", "C", "120", "Monthly", "High", "ctx", none, none, none, none, none, none⟩
      ⟨Except.error (), Except.error (), 0⟩ (Or.inl rfl)).1
  · exact (c4_estimator_fallback ⟨"2026-10-12"⟩
      ⟨"P", "M", "S", "C", "120", "Monthly", "High", "ctx", none, none, none, none, none, none⟩
      ⟨Except.error (), Except.error (), 0⟩ (Or.inl rfl)).2

/-- C5. The validator first requires a mapping whose `maintenance_plan`
key holds a non-empty list; every candidate failing this gate is rejected
with a plain-message structural 422 (`ErrDetail.msg`), a failure shape
distinct from the per-task violation list (`ErrDetail.validationErrors`),
and no per-task violation is ever reported for such a candidate; the
empty-list candidate is rejected this way. -/
theorem c5_structural_gate :
    (∀ c : Json, structGate c = false →
      ∃ s, validate_plan_structure c = Except.error ⟨422, ErrDetail.msg s⟩) ∧
    validate_plan_structure (mkPlan []) =
      Except.error ⟨422, ErrDetail.msg "\x27maintenance_plan\x27 must be a non-empty array of task objects."⟩ := by
  constructor
  · intro c h
    cases c with
    | obj kvs =>
      rcases hg : jsonGet kvs "maintenance_plan" with _ | v
      · exact ⟨"Output must be a JSON object with key \x27maintenance_plan\x27.",
          by simp [validate_plan_structure, jsonHasKey, hg]⟩
      · cases v with
        | arr xs =>
          cases xs with
          | nil => exact ⟨"\x27maintenance_plan\x27 must be a non-empty array of task objects.",
              by simp [validate_plan_structure, jsonHasKey, hg]⟩
          | cons t ts => simp [structGate, hg] at h
        | null => exact ⟨"\x27maintenance_plan\x27 must be a non-empty array of task objects.",
            by simp [validate_plan_structure, jsonHasKey, hg]⟩
        | bool b => exact ⟨"\x27maintenance_plan\x27 must be a non-empty array of task objects.",
            by simp [validate_plan_structure, jsonHasKey, hg]⟩
        | num q => exact ⟨"\x27maintenance_plan\x27 must be a non-empty array of task objects.",
            by simp [validate_plan_structure, jsonHasKey, hg]⟩
        | str s => exact ⟨"\x27maintenance_plan\x27 must be a non-empty array of task objects.",
            by simp [validate_plan_structure, jsonHasKey, hg]⟩
        | obj kvs2 => exact ⟨"\x27maintenance_plan\x27 must be a non-empty array of task objects.",
            by simp [validate_plan_structure, jsonHasKey, hg]⟩
    | null => exact ⟨"Output must be a JSON object with key \x27maintenance_plan\x27.", rfl⟩
    | bool b => exact ⟨"Output must be a JSON object with key \x27maintenance_plan\x27.", rfl⟩
    | num q => exact ⟨"Output must be a JSON object with key \x27maintenance_plan\x27.", rfl⟩
    | str s => exact ⟨"Output must be a JSON object with key \x27maintenance_plan\x27.", rfl⟩
    | arr xs => exact ⟨"Output must be a JSON object with key \x27maintenance_plan\x27.", rfl⟩
  · rfl

/-- Witness for C5 at the non-mapping candidate `"garbage"`. -/
theorem c5_structural_gate_witness :
    ∃ s, validate_plan_structure (Json.str "garbage") = Except.error ⟨422, ErrDetail.msg s⟩ :=
  c5_structural_gate.1 (Json.str "garbage") rfl

set_option maxHeartbeats 4000000 in
/-- C6. `criticality_rating` must be a string that, whitespace-trimmed and
title-cased, equals one of High, Medium, Low: `"high"`, `"High"` and
`"  medium "` pass with no violation, `"Critical"` records a violation,
and every non-string value records a violation. -/
theorem c6_criticality_enum :
    validate_plan_structure (mkPlan [Json.obj (fullTaskWith (Json.str "high"))]) = Except.ok () ∧
    validate_plan_structure (mkPlan [Json.obj (fullTaskWith (Json.str "High"))]) = Except.ok () ∧
    validate_plan_structure (mkPlan [Json.obj (fullTaskWith (Json.str "  medium "))]) = Except.ok () ∧
    validate_plan_structure (mkPlan [Json.obj (fullTaskWith (Json.str "Critical"))]) =
      Except.error ⟨422, ErrDetail.validationErrors
        ["maintenance_plan[0].criticality_rating must be one of High, Medium, Low"]⟩ ∧
    (∀ v : Json, (∀ s, v ≠ Json.str s) →
      taskErrors 0 (Json.obj (fullTaskWith v)) =
        ["maintenance_plan[0].criticality_rating must be one of High, Medium, Low"]) := by
  refine ⟨rfl, rfl, rfl, rfl, ?_⟩
  intro v hv
  cases v with
  | str s => exact absurd rfl (hv s)
  | null => rfl
  | bool b => rfl
  | num q => rfl
  | arr xs => rfl
  | obj kvs => rfl

/-- Witness for C6 at the non-string value `2`. -/
theorem c6_criticality_enum_witness :
    taskErrors 0 (Json.obj (fullTaskWith (Json.num 2))) =
      ["maintenance_plan[0].criticality_rating must be one of High, Medium, Low"] :=
  c6_criticality_enum.2.2.2.2 (Json.num 2) (fun _ h => Json.noConfusion h)

/-- C7. The presence of the deprecated key `scheduled_dates` is itself a
violation: every task object carrying it records the corresponding error,
and a task carrying it alongside all 21 valid required fields is rejected
with exactly that violation. -/
theorem c7_scheduled_dates_rejected :
    (∀ kvs : List (String × Json), jsonHasKey kvs "scheduled_dates" = true →
      "maintenance_plan[0].scheduled_dates must NOT be included; use maintenance_interval in weeks instead"
        ∈ taskErrors 0 (Json.obj kvs)) ∧
    validate_plan_structure
        (mkPlan [Json.obj (fullTask ++ [("scheduled_dates", Json.arr [Json.str "2025-01-01"])])]) =
      Except.error ⟨422, ErrDetail.validationErrors
        ["maintenance_plan[0].scheduled_dates must NOT be included; use maintenance_interval in weeks instead"]⟩ := by
  constructor
  · intro kvs h
    unfold taskErrors
    apply List.mem_append_right
    rw [h]
    exact List.mem_singleton.mpr rfl
  · rfl

/-- Witness for C7 at a singleton task object. -/
theorem c7_scheduled_dates_rejected_witness :
    "maintenance_plan[0].scheduled_dates must NOT be included; use maintenance_interval in weeks instead"
      ∈ taskErrors 0 (Json.obj [("scheduled_dates", Json.null)]) :=
  c7_scheduled_dates_rejected.1 [("scheduled_dates", Json.null)] rfl

/-- C8. Every absent optional field is substituted by the literal
"Not applicable" in its slot of the rendered prompt (the template places
each argument at that field's interpolation site), and the sentinel is
never the empty/blank string. -/
theorem c8_sentinel_substitution :
    ∀ (clock : Clock) (data : PMPlanInput),
      (data.parent_asset = none →
        generate_prompt clock data =
          promptTemplate "Not applicable" (sub_child_asset data) (sub_site_location data)
            (sub_environment data) (sub_hours data) (sub_frequency data)
            (sub_criticality data) (sub_addl data) clock.todayISO) ∧
      (data.child_asset = none →
        generate_prompt clock data =
          promptTemplate (sub_parent_asset data) "Not applicable" (sub_site_location data)
            (sub_environment data) (sub_hours data) (sub_frequency data)
            (sub_criticality data) (sub_addl data) clock.todayISO) ∧
      (data.site_location = none →
        generate_prompt clock data =
          promptTemplate (sub_parent_asset data) (sub_child_asset data) "Not applicable"
            (sub_environment data) (sub_hours data) (sub_frequency data)
            (sub_criticality data) (sub_addl data) clock.todayISO) ∧
      (data.environment = none →
        generate_prompt clock data =
          promptTemplate (sub_parent_asset data) (sub_child_asset data) (sub_site_location data)
            "Not applicable" (sub_hours data) (sub_frequency data)
            (sub_criticality data) (sub_addl data) clock.todayISO) ∧
      ("Not applicable" : String) ≠ "" := by
  intro clock data
  refine ⟨?_, ?_, ?_, ?_, by decide⟩
  · intro h
    unfold generate_prompt
    rw [show sub_parent_asset data = "Not applicable" from by simp [sub_parent_asset, h]]
  · intro h
    unfold generate_prompt
    rw [show sub_child_asset data = "Not applicable" from by simp [sub_child_asset, h]]
  · intro h
    unfold generate_prompt
    rw [show sub_site_location data = "Not applicable" from by simp [sub_site_location, h]]
  · intro h
    unfold generate_prompt
    rw [show sub_environment data = "Not applicable" from by simp [sub_environment, h]]

/-- Witness for C8: a request with all four optional fields absent. -/
theorem c8_sentinel_substitution_witness :
    generate_prompt ⟨"2026-10-12"⟩
        ⟨"Pump", "X200", "SN1", "Pumps", "120", "Monthly", "High", "ctx",
          none, none, none, none, none, none⟩ =
      promptTemplate "Not applicable"
        (sub_child_asset ⟨"Pump", "X200", "SN1", "Pumps", "120", "Monthly", "High", "ctx",
          none, none, none, none, none, none⟩)
        (sub_site_location ⟨"Pump", "X200", "SN1", "Pumps", "120", "Monthly", "High", "ctx",
          none, none, none, none, none, none⟩)
        (sub_environment ⟨"Pump", "X200", "SN1", "Pumps", "120", "Monthly", "High", "ctx",
          none, none, none, none, none, none⟩)
        (sub_hours ⟨"Pump", "X200", "SN1", "Pumps", "120", "Monthly", "High", "ctx",
          none, none, none, none, none, none⟩)
        (sub_frequency ⟨"Pump", "X200", "SN1", "Pumps", "120", "Monthly", "High", "ctx",
          none, none, none, none, none, none⟩)
        (sub_criticality ⟨"Pump", "X200", "SN1", "Pumps", "120", "Monthly", "High", "ctx",
          none, none, none, none, none, none⟩)
        (sub_addl ⟨"Pump", "X200", "SN1", "Pumps", "120", "Monthly", "High", "ctx",
          none, none, none, none, none, none⟩)
        "2026-10-12" :=
  (c8_sentinel_substitution ⟨"2026-10-12"⟩
    ⟨"Pump", "X200", "SN1", "Pumps", "120", "Monthly", "High", "ctx",
      none, none, none, none, none, none⟩).1 rfl

/-- C9. The prompt compiler is deterministic and pure: its output is a
function of the request and the current date alone, so two runs with an
identical `PMPlanInput` and identical "today" date produce byte-identical
prompt text. -/
theorem c9_prompt_determinism :
    ∀ (c1 c2 : Clock) (d1 d2 : PMPlanInput),
      c1.todayISO = c2.todayISO → d1 = d2 →
      generate_prompt c1 d1 = generate_prompt c2 d2 := by
  intro c1 c2 d1 d2 hc hd
  subst hd
  unfold generate_prompt
  rw [hc]

/-- Witness for C9: two runs at the same date and request. -/
theorem c9_prompt_determinism_witness :
    generate_prompt ⟨"2026-10-12"⟩
        ⟨"Pump", "X200", "SN1", "Pumps", "120", "Monthly", "High", "ctx",
          some "Plant", some "Motor", some "Dallas", some "Humid", none, none⟩ =
      generate_prompt ⟨"2026-10-12"⟩
        ⟨"Pump", "X200", "SN1", "Pumps", "120", "Monthly", "High", "ctx",
          some "Plant", some "Motor", some "Dallas", some "Humid", none, none⟩ :=
  c9_prompt_determinism ⟨"2026-10-12"⟩ ⟨"2026-10-12"⟩ _ _ rfl rfl

/-- C10. Among the four always-present string fields, only `criticality`
has a bespoke default: when it is the empty string the prompt receives
the literal "Medium", while empty `hours`, `frequency` and
`additional_context` each receive "Not applicable"; no other value is
ever injected for these fields (each substitution is either the default
or the field itself). -/
theorem c10_empty_field_defaults :
    ∀ (clock : Clock) (data : PMPlanInput),
      (data.criticality = "" → sub_criticality data = "Medium") ∧
      (data.hours = "" → sub_hours data = "Not applicable") ∧
      (data.frequency = "" → sub_frequency data = "Not applicable") ∧
      (data.additional_context = "" → sub_addl data = "Not applicable") ∧
      (sub_criticality data = "Medium" ∨ sub_criticality data = data.criticality) ∧
      (sub_hours data = "Not applicable" ∨ sub_hours data = data.hours) ∧
      (sub_frequency data = "Not applicable" ∨ sub_frequency data = data.frequency) ∧
      (sub_addl data = "Not applicable" ∨ sub_addl data = data.additional_context) ∧
      (data.criticality = "" → data.hours = "" → data.frequency = "" →
        data.additional_context = "" →
        generate_prompt clock data =
          promptTemplate (sub_parent_asset data) (sub_child_asset data) (sub_site_location data)
            (sub_environment data) "Not applicable" "Not applicable" "Medium" "Not applicable"
            clock.todayISO) := by
  intro clock data
  refine ⟨?_, ?_, ?_, ?_, ?_, ?_, ?_, ?_, ?_⟩
  · intro h; unfold sub_criticality; rw [h]; rfl
  · intro h; unfold sub_hours; rw [h]; rfl
  · intro h; unfold sub_frequency; rw [h]; rfl
  · intro h; unfold sub_addl; rw [h]; rfl
  · by_cases h : data.criticality.isEmpty
    · left; simp [sub_criticality, h]
    · right; simp [sub_criticality, h]
  · by_cases h : data.hours.isEmpty
    · left; simp [sub_hours, h]
    · right; simp [sub_hours, h]
  · by_cases h : data.frequency.isEmpty
    · left; simp [sub_frequency, h]
    · right; simp [sub_frequency, h]
  · by_cases h : data.additional_context.isEmpty
    · left; simp [sub_addl, h]
    · right; simp [sub_addl, h]
  · intro h1 h2 h3 h4
    unfold generate_prompt
    rw [show sub_hours data = "Not applicable" from by unfold sub_hours; rw [h2]; rfl,
        show sub_frequency data = "Not applicable" from by unfold sub_frequency; rw [h3]; rfl,
        show sub_criticality data = "Medium" from by unfold sub_criticality; rw [h1]; rfl,
        show sub_addl data = "Not applicable" from by unfold sub_addl; rw [h4]; rfl]

/-- Witness for C10: a request whose four required string fields are empty. -/
theorem c10_empty_field_defaults_witness :
    sub_criticality ⟨"Pump", "X200", "SN1", "Pumps", "", "", "", "",
        none, none, none, none, none, none⟩ = "Medium" ∧
    sub_hours ⟨"Pump", "X200", "SN1", "Pumps", "", "", "", "",
        none, none, none, none, none, none⟩ = "Not applicable" ∧
    sub_frequency ⟨"Pump", "X200", "SN1", "Pumps", "", "", "", "",
        none, none, none, none, none, none⟩ = "Not applicable" ∧
    sub_addl ⟨"Pump", "X200", "SN1", "Pumps", "", "", "", "",
        none, none, none, none, none, none⟩ = "Not applicable" ∧
    generate_prompt ⟨"2026-10-12"⟩
        ⟨"Pump", "X200", "SN1", "Pumps", "", "", "", "",
          none, none, none, none, none, none⟩ =
      promptTemplate "Not applicable" "Not applicable" "Not applicable" "Not applicable"
        "Not applicable" "Not applicable" "Medium" "Not applicable" "2026-10-12" := by
  refine ⟨?_, ?_, ?_, ?_, ?_⟩
  · exact (c10_empty_field_defaults ⟨"2026-10-12"⟩
      ⟨"Pump", "X200", "SN1", "Pumps", "", "", "", "",
        none, none, none, none, none, none⟩).1 rfl
  · exact (c10_empty_field_defaults ⟨"2026-10-12"⟩
      ⟨"Pump", "X200", "SN1", "Pumps", "", "", "", "",
        none, none, none, none, none, none⟩).2.1 rfl
  · exact (c10_empty_field_defaults ⟨"2026-10-12"⟩
      ⟨"Pump", "X200", "SN1", "Pumps", "", "", "", "",
        none, none, none, none, none, none⟩).2.2.1 rfl
  · exact (c10_empty_field_defaults ⟨"2026-10-12"⟩
      ⟨"Pump", "X200", "SN1", "Pumps", "", "", "", "",
        none, none, none, none, none, none⟩).2.2.2.1 rfl
  · exact (c10_empty_field_defaults ⟨"2026-10-12"⟩
      ⟨"Pump", "X200", "SN1", "Pumps", "", "", "", "",
        none, none, none, none, none, none⟩).2.2.2.2.2.2.2.2 rfl rfl rfl rfl
